import Mathlib

/-!
Verification of the conversational message-stream engine
(`src/ui/desktop/src/hooks/useChatEngine.ts` and its use site in
`BaseChatContent`).  The TypeScript hook is shallowly embedded: every
stateful handler is modelled as a pure function from the state it reads
(the message list, token counters, the session id) to the state and
effects it produces.  Timestamps (`Date.now()`) are passed explicitly as
a `now : Nat` argument.
-/

namespace ChatEngine

/-- Result of a tool call, `ToolCallResult<ToolCall>` in the source:
either a success carrying a value, or an error carrying a message. -/
inductive ToolCallResult where
  | success (name : String) (arguments : String)
  | error (err : String)
deriving Repr, DecidableEq

/-- Role of a message: the source uses the string union `user | assistant`. -/
inductive Role where
  | user
  | assistant
deriving Repr, DecidableEq

/-- One typed content block of a message (`MessageContent` in the source).
`toolRequest` carries a request id and a tool call result, `toolResponse`
carries the id it answers and a result, `toolConfirmationRequest` carries
an id, a tool name and opaque arguments. -/
inductive MessageContent where
  | text (text : String)
  | toolRequest (id : String) (toolCall : ToolCallResult)
  | toolResponse (id : String) (toolResult : ToolCallResult)
  | toolConfirmationRequest (id : String) (toolName : String) (arguments : String)
  | contextLengthExceeded (msg : String)
deriving Repr, DecidableEq

/-- `content.type === 'toolConfirmationRequest'` check from the source. -/
def MessageContent.isToolConfirmationRequest : MessageContent → Bool
  | .toolConfirmationRequest _ _ _ => true
  | _ => false

/-- `content.type == 'toolResponse'` check from the source. -/
def MessageContent.isToolResponse : MessageContent → Bool
  | .toolResponse _ _ => true
  | _ => false

/-- `c.type === 'text'` check from the source. -/
def MessageContent.isText : MessageContent → Bool
  | .text _ => true
  | _ => false

/-- A message (`Message` in `types/message`): role, creation timestamp,
ordered content blocks, and the optional `display` / `sendToLLM` flags
(`none` models the field being absent, as in `message.display ?? true`). -/
structure Message where
  role : Role
  created : Nat
  content : List MessageContent
  display : Option Bool := none
  sendToLLM : Option Bool := none
deriving Repr, DecidableEq

/-- `isUserMessage` from `useChatEngine.ts` (lines 20-28): assistant
messages are not user messages, and neither is a message every one of
whose content blocks is a `toolConfirmationRequest`. -/
def isUserMessage (message : Message) : Bool :=
  if message.role = Role.assistant then
    false
  else if message.content.all MessageContent.isToolConfirmationRequest then
    false
  else
    true

/-- The filter-then-map over the last message's content in `onStopGoose`
(lines 288-307): keep `toolRequest` and `toolConfirmationRequest` blocks,
pairing each request id with its tool call (a confirmation request is
turned into a success-status call built from its name and arguments). -/
def requestEntries (content : List MessageContent) : List (String × ToolCallResult) :=
  content.filterMap fun c =>
    match c with
    | .toolRequest id toolCall => some (id, toolCall)
    | .toolConfirmationRequest id toolName arguments =>
        some (id, ToolCallResult.success toolName arguments)
    | _ => none

/-- The fixed interruption text used by `onStopGoose` (line 321). -/
def interruptionNotice : String := "Interrupted by the user to make a correction"

/-- The synthesized response message `onStopGoose` builds (lines 313-335):
a user-role message, `display: true`, `sendToLLM: true`, created at the
stop time, holding one error-status `toolResponse` per request entry, in
entry order. -/
def interruptionMessage (now : Nat) (entries : List (String × ToolCallResult)) : Message :=
  { role := Role.user
    created := now
    content := entries.map fun e =>
      MessageContent.toolResponse e.1 (ToolCallResult.error interruptionNotice)
    display := some true
    sendToLLM := some true }

/-- Outcome of a `stop()` call on the message history: the new tail and
the draft text handed back to the input surface via `_setInput`, if any. -/
structure StopResult where
  messages : List Message
  restoredInput : Option String
deriving Repr, DecidableEq

/-- The draft text `onStopGoose` recovers (lines 273-274): the `text` of
the first text content block, or the empty string when there is none (or
when that text is itself empty, as under the source's `|| ''`). -/
def draftText (message : Message) : String :=
  match message.content.find? MessageContent.isText with
  | some (.text t) => t
  | _ => ""

/-- The history-recovery core of `onStopGoose` (lines 256-339), as a pure
function of the message list at stop time and the current clock.  The
source reads `messages[messages.length - 1]`; returns early when there is
none; restores and drops a trailing genuine user message that carries no
`toolResponse`; otherwise, for a non-user last message, appends one
synthesized response message when it holds any tool request or
confirmation entries. -/
def onStopGooseCore (now : Nat) (messages : List Message) : StopResult :=
  match messages.getLast? with
  | none => { messages := messages, restoredInput := none }
  | some lastMessage =>
    let isToolResponse := lastMessage.content.any MessageContent.isToolResponse
    if isUserMessage lastMessage && !isToolResponse then
      { messages := if messages.length > 1 then messages.dropLast else []
        restoredInput := some (draftText lastMessage) }
    else if !(isUserMessage lastMessage) then
      let entries := requestEntries lastMessage.content
      if entries.length ≠ 0 then
        { messages := messages ++ [interruptionMessage now entries]
          restoredInput := none }
      else
        { messages := messages, restoredInput := none }
    else
      { messages := messages, restoredInput := none }

/-- The filtered view (lines 342-344): the ancestor prefix concatenated
with the live tail, keeping every message whose `display` flag is absent
or true (`message.display ?? true`). -/
def filteredMessages (ancestorMessages messages : List Message) : List Message :=
  (ancestorMessages ++ messages).filter fun message => message.display.getD true

/-- Modelled from the spec: `getTextContent` lives in `types/message`,
which is not among the provided sources.  Per the spec it extracts the
message's `text` content block, the empty string if none. -/
def getTextContent (message : Message) : String :=
  draftText message

/-- Token estimation (lines 163-165): `Math.ceil(text.length / 4)`,
written on naturals as `(length + 3) / 4`. -/
def estimateTokens (text : String) : Nat :=
  (text.length + 3) / 4

/-- The token-counting effect (lines 168-186): walk the live tail,
estimate tokens for each message's non-empty text content, and accumulate
user text into the input counter and assistant text into the output
counter.  Returns `(localInputTokens, localOutputTokens)`. -/
def localTokenStep (acc : Nat × Nat) (message : Message) : Nat × Nat :=
  let textContent := getTextContent message
  if textContent ≠ "" then
    let tokens := estimateTokens textContent
    match message.role with
    | Role.user => (acc.1 + tokens, acc.2)
    | Role.assistant => (acc.1, acc.2 + tokens)
  else
    acc

def localTokenCounts (messages : List Message) : Nat × Nat :=
  messages.foldl localTokenStep (0, 0)

/-- Spec-side definition, written from the spec's words: the per-role sum
of the token estimates of each message's text. -/
def roleTextEstimateSum (r : Role) (messages : List Message) : Nat :=
  ((messages.filter fun m => m.role == r).map fun m =>
    estimateTokens (getTextContent m)).sum

/-- Spec-side definition, written from the spec's words for comparison
with `localTokenCounts`: the same per-role sums taken "across the full
visible conversation", i.e. over `filteredMessages` of the ancestor
prefix and the tail. -/
def specVisibleTokenCounts (ancestorMessages messages : List Message) : Nat × Nat :=
  localTokenCounts (filteredMessages ancestorMessages messages)

/-- The whitespace class of JavaScript `String.prototype.trim`:
WhiteSpace and LineTerminator code points. -/
def jsWhitespace (c : Char) : Bool :=
  c = ' ' || c = '\t' || c = '\n' || c = '\r' ||
  c = Char.ofNat 0x0b || c = Char.ofNat 0x0c ||
  c = Char.ofNat 0xa0 || c = Char.ofNat 0x1680 ||
  (Char.ofNat 0x2000 ≤ c && c ≤ Char.ofNat 0x200a) ||
  c = Char.ofNat 0x2028 || c = Char.ofNat 0x2029 ||
  c = Char.ofNat 0x202f || c = Char.ofNat 0x205f ||
  c = Char.ofNat 0x3000 || c = Char.ofNat 0xfeff

/-- JavaScript `trim` on a character list: drop leading whitespace, then
drop trailing whitespace. -/
def jsTrimList (l : List Char) : List Char :=
  ((l.dropWhile jsWhitespace).reverse.dropWhile jsWhitespace).reverse

/-- JavaScript `String.prototype.trim`. -/
def jsTrim (s : String) : String :=
  String.mk (jsTrimList s.data)

/-- Modelled from the spec: `createUserMessage` lives in `types/message`,
which is not among the provided sources.  Per the spec a raw string is
wrapped into a user-role message whose content is a single text block. -/
def createUserMessage (text : String) (now : Nat) : Message :=
  { role := Role.user
    created := now
    content := [MessageContent.text text] }

/-- Effects of one `handleSubmit` call: which power-save-blocker calls it
made and the message it appended, if any. -/
structure SubmitEffects where
  startedPowerSaveBlocker : Bool
  stoppedPowerSaveBlocker : Bool
  appended : Option Message
deriving Repr, DecidableEq

/-- The submission handler (lines 222-248) as a pure function of the
input text and the clock.  A truthy trimmed input starts the power-save
blocker and appends a user message built from the trimmed text (with a
summary-reset callback the append is merely deferred, so the appended
message is the same); a blank input only stops the power-save blocker.
Stream sessions are opened only by appends, so `appended = none` also
means no stream session is opened. -/
def handleSubmitCore (combinedTextFromInput : String) (now : Nat) : SubmitEffects :=
  if jsTrim combinedTextFromInput ≠ "" then
    { startedPowerSaveBlocker := true
      stoppedPowerSaveBlocker := false
      appended := some (createUserMessage (jsTrim combinedTextFromInput) now) }
  else
    { startedPowerSaveBlocker := false
      stoppedPowerSaveBlocker := true
      appended := none }

/-- Metadata carried by stream completion events (`sessionMetadata`):
each field may be absent, as in the source's `|| 0` guards. -/
structure SessionMetadata where
  totalTokens : Option Nat
  accumulatedInputTokens : Option Nat
  accumulatedOutputTokens : Option Nat
deriving Repr, DecidableEq

/-- The token counters held by the engine: the authoritative values from
metadata/fetch and the local estimates. -/
structure TokenState where
  sessionTokenCount : Nat
  sessionInputTokens : Nat
  sessionOutputTokens : Nat
  localInputTokens : Nat
  localOutputTokens : Nat
deriving Repr, DecidableEq

/-- The metadata effect (lines 212-219): when stream metadata arrives,
each authoritative counter is set to the carried value, absent fields
defaulting to 0 (`sessionMetadata.totalTokens || 0`). -/
def applyStreamMetadata (md : SessionMetadata) (st : TokenState) : TokenState :=
  { st with
    sessionTokenCount := md.totalTokens.getD 0
    sessionInputTokens := md.accumulatedInputTokens.getD 0
    sessionOutputTokens := md.accumulatedOutputTokens.getD 0 }

/-- JavaScript `a || b` on numbers: `a` unless it is 0, else `b`. -/
def jsOrNat (a b : Nat) : Nat :=
  if a = 0 then b else a

/-- Displayed overall total, from `BaseChatContent`:
`numTokens = sessionTokenCount`. -/
def displayedNumTokens (st : TokenState) : Nat :=
  st.sessionTokenCount

/-- Displayed input total, from `BaseChatContent`:
`inputTokens = sessionInputTokens || localInputTokens`. -/
def displayedInputTokens (st : TokenState) : Nat :=
  jsOrNat st.sessionInputTokens st.localInputTokens

/-- Displayed output total, from `BaseChatContent`:
`outputTokens = sessionOutputTokens || localOutputTokens`. -/
def displayedOutputTokens (st : TokenState) : Nat :=
  jsOrNat st.sessionOutputTokens st.localOutputTokens

/-- The new-session id test of `onFinish` (line 113): the regex
match of eight digits, an underscore, then six digits, anchored at both
ends. -/
def matchesNewSessionFormat (id : String) : Bool :=
  let cs := id.data
  cs.length = 15 &&
  (cs.take 8).all Char.isDigit &&
  cs.get? 8 = some '_' &&
  (cs.drop 9).all Char.isDigit

/-- Whether one run of `onFinish` dispatches the `message-stream-finished`
event (lines 113-120): the id must be truthy (non-empty) and match the
date-time format. -/
def onFinishEmitsRefresh (id : String) : Bool :=
  id ≠ "" && matchesNewSessionFormat id

/-- Number of `message-stream-finished` events dispatched after the given
number of stream completions: `onFinish` runs once per completion and
its emission test depends only on the session id. -/
def refreshEmissions (id : String) : Nat → Nat
  | 0 => 0
  | n + 1 => refreshEmissions id n + (if onFinishEmitsRefresh id then 1 else 0)

/-- Engine events that touch the power-save blocker. -/
inductive EngineEvent where
  | submitText (input : String)
  | streamFinish
  | streamError
  | stopPressed
deriving Repr, DecidableEq

/-- Whether the power-save blocker is held after one engine event, from
the handlers in the source: `handleSubmit` starts it on truthy trimmed
input and stops it on blank input (lines 224-245); `onFinish` stops it
(line 99); `onStopGoose` stops it (line 254).  The `onError` handler
(lines 124-140) only logs and never calls `stopPowerSaveBlocker`, and —
modelled from the spec, the stream wrapper being absent from the provided
sources — the finish callback fires only on terminal success (§4.2), so a
stream error leaves the blocker as it was. -/
def powerBlockerStep (held : Bool) : EngineEvent → Bool
  | .submitText input => if jsTrim input ≠ "" then true else false
  | .streamFinish => false
  | .streamError => held
  | .stopPressed => false

/-- Whether the blocker is held after a sequence of engine events,
starting released. -/
def powerBlockerRun (events : List EngineEvent) : Bool :=
  events.foldl powerBlockerStep false

/-! Helper lemmas. -/

lemma natCeil_div_four (n : Nat) : Nat.ceil ((n : ℚ) / 4) = (n + 3) / 4 := by
  rcases Nat.eq_zero_or_pos ((n + 3) / 4) with h0 | hpos
  · have hn : n = 0 := by omega
    subst hn
    norm_num
  · rw [Nat.ceil_eq_iff hpos.ne']
    constructor
    · rw [lt_div_iff₀ (by norm_num : (0 : ℚ) < 4)]
      have h1 : ((n + 3) / 4 - 1) * 4 < n := by omega
      exact_mod_cast h1
    · rw [div_le_iff₀ (by norm_num : (0 : ℚ) < 4)]
      have h2 : n ≤ (n + 3) / 4 * 4 := by omega
      exact_mod_cast h2

lemma localTokenCounts_foldl (messages : List Message) : ∀ a b : Nat,
    messages.foldl localTokenStep (a, b) =
      (a + roleTextEstimateSum Role.user messages,
       b + roleTextEstimateSum Role.assistant messages) := by
  induction messages with
  | nil => intro a b; simp [roleTextEstimateSum]
  | cons m tl ih =>
    intro a b
    have hempty : estimateTokens "" = 0 := rfl
    by_cases ht : getTextContent m = ""
    · cases hrole : m.role <;>
        simp [localTokenStep, ht, ih, roleTextEstimateSum, hrole, hempty,
          Nat.add_assoc]
    · cases hrole : m.role <;>
        simp [localTokenStep, ht, ih, roleTextEstimateSum, hrole,
          Nat.add_assoc]

lemma requestEntries_length_of_all_confirmation (content : List MessageContent)
    (h : content.all MessageContent.isToolConfirmationRequest = true) :
    (requestEntries content).length = content.length := by
  induction content with
  | nil => rfl
  | cons c tl ih =>
    simp only [List.all_cons, Bool.and_eq_true] at h
    cases c <;> simp_all [requestEntries, MessageContent.isToolConfirmationRequest]

lemma isUserMessage_false_of_all_confirmation (m : Message)
    (h : m.content.all MessageContent.isToolConfirmationRequest = true) :
    isUserMessage m = false := by
  unfold isUserMessage
  split
  · rfl
  · simp [h]

lemma jsTrimList_eq_nil_of_all_whitespace (l : List Char)
    (h : ∀ c ∈ l, jsWhitespace c = true) : jsTrimList l = [] := by
  have h1 : l.dropWhile jsWhitespace = [] := List.dropWhile_eq_nil_iff.mpr h
  simp [jsTrimList, h1]

lemma exists_mem_dropWhile_of_exists (p : Char → Bool) (l : List Char)
    (h : ∃ c ∈ l, p c = false) : ∃ c ∈ l.dropWhile p, p c = false := by
  induction l with
  | nil => simp at h
  | cons hd tl ih =>
    by_cases hp : p hd
    · rw [List.dropWhile_cons_of_pos hp]
      apply ih
      rcases h with ⟨c, hc, hpc⟩
      rcases List.mem_cons.mp hc with rfl | hc2
      · rw [hp] at hpc; cases hpc
      · exact ⟨c, hc2, hpc⟩
    · rw [List.dropWhile_cons_of_neg hp]
      exact h

lemma jsTrimList_ne_nil_of_exists (l : List Char)
    (h : ∃ c ∈ l, jsWhitespace c = false) : jsTrimList l ≠ [] := by
  have h1 := exists_mem_dropWhile_of_exists jsWhitespace l h
  have h2 : ∃ c ∈ (l.dropWhile jsWhitespace).reverse, jsWhitespace c = false := by
    rcases h1 with ⟨c, hc, hpc⟩
    exact ⟨c, List.mem_reverse.mpr hc, hpc⟩
  have h3 := exists_mem_dropWhile_of_exists jsWhitespace _ h2
  rcases h3 with ⟨c, hc, _⟩
  intro hnil
  rw [jsTrimList] at hnil
  rw [List.reverse_eq_nil_iff] at hnil
  rw [hnil] at hc
  cases hc

lemma jsTrim_ne_empty_of_exists (s : String)
    (h : ∃ c ∈ s.data, jsWhitespace c = false) : jsTrim s ≠ "" := by
  intro heq
  have hdat : (jsTrim s).data = jsTrimList s.data := rfl
  rw [heq] at hdat
  exact jsTrimList_ne_nil_of_exists s.data h hdat.symm

lemma jsTrim_eq_empty_of_all (s : String)
    (h : ∀ c ∈ s.data, jsWhitespace c = true) : jsTrim s = "" := by
  have h1 : jsTrimList s.data = [] := jsTrimList_eq_nil_of_all_whitespace s.data h
  show String.mk (jsTrimList s.data) = ""
  rw [h1]

lemma display_getD_eq_not_beq (m : Message) :
    m.display.getD true = !(m.display == some false) := by
  cases h : m.display with
  | none => rfl
  | some b => cases b <;> simp [h]

/-! Claim theorems. -/

/-- C1: when the last message is an assistant message, `stop()` appends
exactly one new user-role message (`display: true`, `sendToLLM: true`)
holding, in the order the `toolRequest` / `toolConfirmationRequest`
entries appear, one error-status `toolResponse` per request id with the
fixed interruption text; every previously existing message, the assistant
message included, is unchanged; with zero such entries nothing is
appended. -/
theorem stop_appends_interruption_responses_c1 :
    ∀ (now : Nat) (messages : List Message) (lastMessage : Message),
      messages.getLast? = some lastMessage →
      lastMessage.role = Role.assistant →
      ((requestEntries lastMessage.content ≠ [] →
        onStopGooseCore now messages =
          { messages := messages ++ [interruptionMessage now (requestEntries lastMessage.content)]
            restoredInput := none }) ∧
       (requestEntries lastMessage.content = [] →
        onStopGooseCore now messages = { messages := messages, restoredInput := none })) := by
  intro now messages lastMessage hlast hrole
  have huser : isUserMessage lastMessage = false := by
    simp [isUserMessage, hrole]
  constructor
  · intro hne
    have hlen : ¬((requestEntries lastMessage.content).length = 0) := by
      simpa [List.length_eq_zero] using hne
    simp [onStopGooseCore, hlast, huser, hlen]
  · intro heq
    simp [onStopGooseCore, hlast, huser, heq]

/-- Witness for C1: stopping over a single assistant message carrying a
tool request `a` and a tool confirmation request `b` appends one user
message with error responses for `a` then `b`. -/
theorem stop_appends_interruption_responses_c1_witness :
    onStopGooseCore 7
      [{ role := Role.assistant, created := 0,
         content := [MessageContent.toolRequest "a" (ToolCallResult.success "shell" "ls"),
                     MessageContent.toolConfirmationRequest "b" "fetch" "url"] }] =
      { messages :=
          [{ role := Role.assistant, created := 0,
             content := [MessageContent.toolRequest "a" (ToolCallResult.success "shell" "ls"),
                         MessageContent.toolConfirmationRequest "b" "fetch" "url"] },
           { role := Role.user, created := 7,
             content := [MessageContent.toolResponse "a"
                           (ToolCallResult.error interruptionNotice),
                         MessageContent.toolResponse "b"
                           (ToolCallResult.error interruptionNotice)],
             display := some true, sendToLLM := some true }]
        restoredInput := none } := by
  have h :=
    (stop_appends_interruption_responses_c1 7
      [{ role := Role.assistant, created := 0,
         content := [MessageContent.toolRequest "a" (ToolCallResult.success "shell" "ls"),
                     MessageContent.toolConfirmationRequest "b" "fetch" "url"] }]
      { role := Role.assistant, created := 0,
        content := [MessageContent.toolRequest "a" (ToolCallResult.success "shell" "ls"),
                    MessageContent.toolConfirmationRequest "b" "fetch" "url"] }
      rfl rfl).1 (by decide)
  exact h.trans (by decide)

/-- C2: when the message list is non-empty and its last message is a
genuine user message (per `isUserMessage`) with no `toolResponse` block,
`stop()` hands back the text of its text block (empty string if none) and
drops exactly that message, leaving all prior messages intact (the tail
becomes empty when it was the only message). -/
theorem stop_recovers_user_draft_c2 :
    ∀ (now : Nat) (messages : List Message) (lastMessage : Message),
      messages.getLast? = some lastMessage →
      isUserMessage lastMessage = true →
      lastMessage.content.any MessageContent.isToolResponse = false →
      onStopGooseCore now messages =
        { messages := messages.dropLast
          restoredInput := some (draftText lastMessage) } := by
  intro now messages lastMessage hlast huser hresp
  rcases Nat.lt_or_ge 1 messages.length with hl | hl
  · simp [onStopGooseCore, hlast, huser, hresp, hl]
  · have hne : messages ≠ [] := by
      intro hnil
      rw [hnil] at hlast
      cases hlast
    have hlen1 : messages.length = 1 := by
      have := List.length_pos.mpr hne
      omega
    rcases List.length_eq_one.mp hlen1 with ⟨a, rfl⟩
    simp [onStopGooseCore, hlast, huser, hresp]

/-- Witness for C2: stopping over an assistant message followed by a user
draft returns the draft text and drops only the draft. -/
theorem stop_recovers_user_draft_c2_witness :
    onStopGooseCore 3
      [{ role := Role.assistant, created := 0, content := [MessageContent.text "hi"] },
       { role := Role.user, created := 1, content := [MessageContent.text "hello draft"] }] =
      { messages := [{ role := Role.assistant, created := 0,
                       content := [MessageContent.text "hi"] }]
        restoredInput := some "hello draft" } := by
  have h :=
    stop_recovers_user_draft_c2 3
      [{ role := Role.assistant, created := 0, content := [MessageContent.text "hi"] },
       { role := Role.user, created := 1, content := [MessageContent.text "hello draft"] }]
      { role := Role.user, created := 1, content := [MessageContent.text "hello draft"] }
      rfl (by decide) (by decide)
  exact h.trans (by decide)

/-- Counterexample to C3 as stated: a last message composed solely of
`toolConfirmationRequest` blocks is not left untouched — `stop()` appends
a synthesized response message to it. -/
theorem stop_other_shapes_c3_counterexample :
    (onStopGooseCore 5
      [{ role := Role.user, created := 0,
         content := [MessageContent.toolConfirmationRequest "a" "shell" "args"] }]).messages ≠
      [{ role := Role.user, created := 0,
         content := [MessageContent.toolConfirmationRequest "a" "shell" "args"] }] := by
  decide

/-- C3 amended: a last user message containing a `toolResponse` block is
left untouched by `stop()`; but a last message composed solely of
`toolConfirmationRequest` blocks (at least one) is handled by the
interruption branch instead, gaining one synthesized response message. -/
theorem stop_other_shapes_c3_amended :
    ∀ (now : Nat) (messages : List Message) (lastMessage : Message),
      messages.getLast? = some lastMessage →
      ((isUserMessage lastMessage = true →
        lastMessage.content.any MessageContent.isToolResponse = true →
        onStopGooseCore now messages = { messages := messages, restoredInput := none }) ∧
       (lastMessage.content ≠ [] →
        lastMessage.content.all MessageContent.isToolConfirmationRequest = true →
        (onStopGooseCore now messages).messages =
          messages ++ [interruptionMessage now (requestEntries lastMessage.content)])) := by
  intro now messages lastMessage hlast
  constructor
  · intro huser hresp
    simp [onStopGooseCore, hlast, huser, hresp]
  · intro hne hall
    have huser : isUserMessage lastMessage = false :=
      isUserMessage_false_of_all_confirmation lastMessage hall
    have hlen : ¬((requestEntries lastMessage.content).length = 0) := by
      rw [requestEntries_length_of_all_confirmation lastMessage.content hall]
      simpa [List.length_eq_zero] using hne
    simp [onStopGooseCore, hlast, huser, hlen]

/-- Witness for C3 amended: a user message that carries a `toolResponse`
block is left untouched. -/
theorem stop_other_shapes_c3_witness :
    onStopGooseCore 3
      [{ role := Role.user, created := 0,
         content := [MessageContent.text "done",
                     MessageContent.toolResponse "x" (ToolCallResult.success "shell" "ok")] }] =
      { messages :=
          [{ role := Role.user, created := 0,
             content := [MessageContent.text "done",
                         MessageContent.toolResponse "x" (ToolCallResult.success "shell" "ok")] }]
        restoredInput := none } :=
  (stop_other_shapes_c3_amended 3
    [{ role := Role.user, created := 0,
       content := [MessageContent.text "done",
                   MessageContent.toolResponse "x" (ToolCallResult.success "shell" "ok")] }]
    { role := Role.user, created := 0,
      content := [MessageContent.text "done",
                  MessageContent.toolResponse "x" (ToolCallResult.success "shell" "ok")] }
    rfl).1 (by decide) (by decide)

/-- C10: a role-user message with an empty content list is classified as
non-user (the all-confirmation check is vacuously true), and stopping
with it as the last message performs no draft recovery and appends
nothing. -/
theorem stop_empty_user_message_c10 :
    ∀ (now : Nat) (messages : List Message) (lastMessage : Message),
      messages.getLast? = some lastMessage →
      lastMessage.role = Role.user →
      lastMessage.content = [] →
      isUserMessage lastMessage = false ∧
      onStopGooseCore now messages = { messages := messages, restoredInput := none } := by
  intro now messages lastMessage hlast hrole hcontent
  have huser : isUserMessage lastMessage = false := by
    simp [isUserMessage, hcontent]
  refine ⟨huser, ?_⟩
  simp [onStopGooseCore, hlast, huser, hcontent, requestEntries]

/-- Witness for C10: stopping over a single empty-content user message
changes nothing and restores no draft. -/
theorem stop_empty_user_message_c10_witness :
    isUserMessage { role := Role.user, created := 0, content := [] } = false ∧
    onStopGooseCore 2 [{ role := Role.user, created := 0, content := [] }] =
      { messages := [{ role := Role.user, created := 0, content := [] }]
        restoredInput := none } :=
  stop_empty_user_message_c10 2
    [{ role := Role.user, created := 0, content := [] }]
    { role := Role.user, created := 0, content := [] }
    rfl rfl rfl

/-- C4: the filtered view is the ancestor prefix followed by the tail
with exactly the messages whose `display` field is explicitly `false`
removed, and it is a sublist of the concatenation, so the relative order
of the remaining messages is preserved. -/
theorem filtered_view_c4 :
    ∀ (ancestorMessages messages : List Message),
      filteredMessages ancestorMessages messages =
        (ancestorMessages ++ messages).filter (fun m => !(m.display == some false)) ∧
      List.Sublist (filteredMessages ancestorMessages messages)
        (ancestorMessages ++ messages) := by
  intro ancestorMessages messages
  constructor
  · unfold filteredMessages
    apply List.filter_congr
    intro m _
    exact display_getD_eq_not_beq m
  · exact List.filter_sublist _

/-- C5: an input whose characters are all whitespace makes `submit`
append nothing (hence open no stream session, appends being the only way
one opens) while still issuing the release of the keep-device-awake
resource; an input with any non-whitespace character appends a user
message built from the trimmed text after acquiring that resource. -/
theorem submit_blank_vs_content_c5 :
    ∀ (input : String) (now : Nat),
      ((∀ c ∈ input.data, jsWhitespace c = true) →
        handleSubmitCore input now =
          { startedPowerSaveBlocker := false
            stoppedPowerSaveBlocker := true
            appended := none }) ∧
      ((∃ c ∈ input.data, jsWhitespace c = false) →
        handleSubmitCore input now =
          { startedPowerSaveBlocker := true
            stoppedPowerSaveBlocker := false
            appended := some (createUserMessage (jsTrim input) now) }) := by
  intro input now
  constructor
  · intro hall
    have hblank : jsTrim input = "" := jsTrim_eq_empty_of_all input hall
    simp [handleSubmitCore, hblank]
  · intro hsome
    have hne : jsTrim input ≠ "" := jsTrim_ne_empty_of_exists input hsome
    simp [handleSubmitCore, hne]

/-- Witness for C5: a three-space input appends nothing and stops the
blocker; an input with text appends the trimmed user message. -/
theorem submit_blank_vs_content_c5_witness :
    handleSubmitCore "   " 0 =
      { startedPowerSaveBlocker := false
        stoppedPowerSaveBlocker := true
        appended := none } ∧
    handleSubmitCore " hi " 1 =
      { startedPowerSaveBlocker := true
        stoppedPowerSaveBlocker := false
        appended := some (createUserMessage "hi" 1) } := by
  constructor
  · exact (submit_blank_vs_content_c5 "   " 0).1 (by decide)
  · have h := (submit_blank_vs_content_c5 " hi " 1).2 (by decide)
    exact h.trans (by decide)

/-- Counterexample to C6 as stated: the local estimates are not summed
over the full visible conversation — a tail message with `display: false`
is excluded from the visible conversation but still counted by the
token-estimation effect. -/
theorem local_token_counts_c6_counterexample :
    localTokenCounts
      [{ role := Role.user, created := 0, content := [MessageContent.text "abcd"],
         display := some false }] ≠
    specVisibleTokenCounts []
      [{ role := Role.user, created := 0, content := [MessageContent.text "abcd"],
         display := some false }] := by
  decide

/-- C6 amended: the local token estimate of a text is the ceiling of its
length divided by four, and the local input/output estimates are these
values summed separately over user and assistant text across the live
message tail (messages with `display: false` included, ancestor messages
excluded). -/
theorem local_token_counts_c6_amended :
    (∀ s : String, estimateTokens s = Nat.ceil ((s.length : ℚ) / 4)) ∧
    (∀ messages : List Message,
      localTokenCounts messages =
        (roleTextEstimateSum Role.user messages,
         roleTextEstimateSum Role.assistant messages)) := by
  constructor
  · intro s
    exact (natCeil_div_four s.length).symm
  · intro messages
    simpa using localTokenCounts_foldl messages 0 0

/-- Counterexample to C7 as stated: after authoritative metadata carrying
an input-token count of zero arrives, the displayed input total is the
local estimate (10 here), not the authoritative zero, because the display
falls back on any zero value. -/
theorem displayed_tokens_c7_counterexample :
    displayedInputTokens
      (applyStreamMetadata
        { totalTokens := some 0, accumulatedInputTokens := some 0,
          accumulatedOutputTokens := some 0 }
        { sessionTokenCount := 0, sessionInputTokens := 0, sessionOutputTokens := 0,
          localInputTokens := 10, localOutputTokens := 0 }) ≠ 0 := by
  decide

/-- C7 amended: after stream metadata arrives, the displayed overall
total always equals the authoritative total (zero included); the
displayed input and output totals equal the authoritative values only
when those are nonzero, and fall back to the local estimates when the
authoritative value is zero or absent. -/
theorem displayed_tokens_c7_amended :
    ∀ (md : SessionMetadata) (st : TokenState),
      displayedNumTokens (applyStreamMetadata md st) = md.totalTokens.getD 0 ∧
      displayedInputTokens (applyStreamMetadata md st) =
        (if md.accumulatedInputTokens.getD 0 = 0 then st.localInputTokens
         else md.accumulatedInputTokens.getD 0) ∧
      displayedOutputTokens (applyStreamMetadata md st) =
        (if md.accumulatedOutputTokens.getD 0 = 0 then st.localOutputTokens
         else md.accumulatedOutputTokens.getD 0) := by
  intro md st
  refine ⟨rfl, ?_, ?_⟩
  · by_cases h : md.accumulatedInputTokens.getD 0 = 0 <;>
      simp [displayedInputTokens, applyStreamMetadata, jsOrNat, h]
  · by_cases h : md.accumulatedOutputTokens.getD 0 = 0 <;>
      simp [displayedOutputTokens, applyStreamMetadata, jsOrNat, h]

/-- C8: evaluation at the failing input — after a non-blank submission
whose stream ends in an error, the keep-device-awake handle is still
held, because the error handler performs no release (the finish callback
fires only on terminal success). -/
theorem power_blocker_leak_c8 :
    powerBlockerRun [EngineEvent.submitText "hi", EngineEvent.streamError] = true := by
  decide

/-- Counterexample to C9 as stated: for a session id in the date-time
format, two stream completions dispatch the refresh signal twice, not
exactly once. -/
theorem refresh_signal_c9_counterexample :
    refreshEmissions "20240101_123456" 2 ≠ 1 := by
  decide

/-- C9 amended: the refresh signal is dispatched on every stream
completion — after n completions it has been emitted n times — whenever
the session id is non-empty and matches the date-time format, and never
otherwise. -/
theorem refresh_signal_c9_amended :
    ∀ (id : String) (n : Nat),
      refreshEmissions id n = if onFinishEmitsRefresh id = true then n else 0 := by
  intro id n
  induction n with
  | zero => simp [refreshEmissions]
  | succ n ih =>
    by_cases h : onFinishEmitsRefresh id = true <;>
      simp [refreshEmissions, ih, h]

end ChatEngine
